import Mathlib

/-!
Verification of the Fortuna AI-model subsystem
(`backend/app/ai_models/...`) against its natural-language specification.

The Python source is shallowly embedded: pure computations become Lean
functions over `ℚ`/`ℤ`/`ℝ` (float arithmetic is modelled exactly over the
rationals/reals), raising code returns `Except PyErr`, and the mutable
model objects become explicit state records.  Opaque scikit-learn model
outputs (regressor/forest predictions, isolation-forest scores) are
parameters of the embedded functions, since their numeric values are not
specified by the code under verification.
-/

/-- Python exception classes that the embedded code can raise.  The last two
constructors (`missingFeatureError`, `insufficientDataError`) belong to the
specification's error taxonomy; the repository defines no such classes
(`backend/app/core/exceptions.py` has neither) and the embedded code never
raises them — they exist so that statements can say "the raised error is
not the spec's named error". -/
inductive PyErr where
  | valueError (msg : String)
  | keyError (key : String)
  | fileNotFoundError (msg : String)
  | attributeError (msg : String)
  | missingFeatureError (msg : String)
  | insufficientDataError (msg : String)
deriving DecidableEq, Repr

/-- True exactly for the spec taxonomy's `MissingFeatureError`. -/
def PyErr.isMissingFeature : PyErr → Bool
  | .missingFeatureError _ => true
  | _ => false

/-- True exactly for the spec taxonomy's `InsufficientDataError`. -/
def PyErr.isInsufficientData : PyErr → Bool
  | .insufficientDataError _ => true
  | _ => false

/-- Message carried by an exception (Python `str(e)`). -/
def PyErr.message : PyErr → String
  | .valueError m => m
  | .keyError k => k
  | .fileNotFoundError m => m
  | .attributeError m => m
  | .missingFeatureError m => m
  | .insufficientDataError m => m

/-- A calendar date, the value held by a pandas `Timestamp` at day
resolution (the only resolution the embedded code uses). -/
structure Date where
  year : Int
  month : Nat
  day : Nat
deriving DecidableEq, Repr

namespace Date

/-- Days since the civil epoch 1970-01-01 (the standard days-from-civil
computation used by date libraries). -/
def toEpochDays (d : Date) : Int :=
  let m : Int := d.month
  let y : Int := if m ≤ 2 then d.year - 1 else d.year
  let era : Int := (if 0 ≤ y then y else y - 399) / 400
  let yoe : Int := y - era * 400
  let mp : Int := (m + 9) % 12
  let doy : Int := (153 * mp + 2) / 5 + (d.day : Int) - 1
  let doe : Int := yoe * 365 + yoe / 4 - yoe / 100 + doy
  era * 146097 + doe - 719468

/-- pandas `Series.dt.dayofweek`: Monday = 0 … Sunday = 6.
1970-01-01 was a Thursday, hence the offset 3. -/
def dayOfWeek (d : Date) : Int :=
  (toEpochDays d + 3) % 7

/-- Whether a year is a leap year in the Gregorian calendar. -/
def isLeap (y : Int) : Bool :=
  (y % 4 == 0 && y % 100 != 0) || y % 400 == 0

/-- Number of days in a month. -/
def daysInMonth (y : Int) (m : Nat) : Nat :=
  if m = 2 then (if isLeap y then 29 else 28)
  else if m = 4 ∨ m = 6 ∨ m = 9 ∨ m = 11 then 30
  else 31

/-- One-based ordinal day of the year. -/
def dayOfYear (d : Date) : Int :=
  (((List.range d.month).filter (fun m => 1 ≤ m)).map
      (fun m => (daysInMonth d.year m : Int))).sum + (d.day : Int)

/-- Auxiliary quantity of the ISO-8601 week-count rule. -/
def isoP (y : Int) : Int :=
  (y + y / 4 - y / 100 + y / 400) % 7

/-- Number of ISO-8601 weeks in a year (52 or 53). -/
def isoWeeksInYear (y : Int) : Int :=
  if isoP y = 4 ∨ isoP (y - 1) = 3 then 53 else 52

/-- pandas `Series.dt.isocalendar().week`: the ISO-8601 week number. -/
def isoWeek (d : Date) : Int :=
  let isoDow := dayOfWeek d + 1
  let w := (dayOfYear d - isoDow + 10) / 7
  if w < 1 then isoWeeksInYear (d.year - 1)
  else if isoWeeksInYear d.year < w then 1
  else w

/-- pandas `Series.dt.quarter`. -/
def quarter (d : Date) : Nat :=
  (d.month + 2) / 3

end Date

/-- A value stored in a DataFrame cell.  Floats are modelled exactly as
rationals; dates as `Date`. -/
inductive PyVal where
  | int (n : Int)
  | rat (q : ℚ)
  | str (s : String)
  | date (d : Date)
  | nullv
deriving DecidableEq, Repr

/-- pandas `to_datetime` on one cell: only genuine dates parse in this
model (the inputs the repository feeds it are date-typed columns). -/
def PyVal.toDatetime : PyVal → Option Date
  | .date d => some d
  | _ => none

/-- A pandas DataFrame, modelled column-wise: ordered association of
column name to list of cell values. -/
structure DataFrame where
  cols : List (String × List PyVal)
deriving DecidableEq, Repr

namespace DataFrame

/-- Look a column up by name (`df[name]`). -/
def getCol (df : DataFrame) (name : String) : Option (List PyVal) :=
  go df.cols
where
  go : List (String × List PyVal) → Option (List PyVal)
    | [] => none
    | (m, vs) :: rest => if m = name then some vs else go rest

/-- Column assignment `df[name] = vs`: overwrite in place if the column
exists (keeping its position), otherwise append it at the end — pandas
semantics. -/
def setColList : List (String × List PyVal) → String → List PyVal →
    List (String × List PyVal)
  | [], n, vs => [(n, vs)]
  | (m, ws) :: rest, n, vs =>
      if m = n then (n, vs) :: rest else (m, ws) :: setColList rest n vs

/-- Column assignment at the DataFrame level. -/
def setCol (df : DataFrame) (name : String) (vs : List PyVal) : DataFrame :=
  ⟨setColList df.cols name vs⟩

/-- A sequence of column assignments, performed left to right. -/
def setCols (df : DataFrame) (L : List (String × List PyVal)) : DataFrame :=
  L.foldl (fun d p => setCol d p.1 p.2) df

end DataFrame

/-! ## FeatureEngineer.create_time_features
(`backend/app/ai_models/utils/feature_engineering.py`, lines 21-56) -/

namespace FeatureEngineer

/-- The ten columns written by `create_time_features`, in source order,
as functions of the parsed date column. -/
def timeFeatureCols (dates : List Date) : List (String × List PyVal) :=
  let dow := dates.map Date.dayOfWeek
  let dom := dates.map (fun d => (d.day : Int))
  [ ("day_of_week", dow.map PyVal.int),
    ("day_of_month", dom.map PyVal.int),
    ("week_of_year", dates.map (fun d => PyVal.int (Date.isoWeek d))),
    ("month", dates.map (fun d => PyVal.int (d.month : Int))),
    ("quarter", dates.map (fun d => PyVal.int (Date.quarter d : Int))),
    ("year", dates.map (fun d => PyVal.int d.year)),
    ("is_weekend", dow.map (fun w => PyVal.int (if w = 5 ∨ w = 6 then 1 else 0))),
    ("is_month_start", dom.map (fun x => PyVal.int (if x ≤ 5 then 1 else 0))),
    ("is_month_end", dom.map (fun x => PyVal.int (if 25 ≤ x then 1 else 0))),
    ("is_payday", dom.map (fun x => PyVal.int (if x = 1 ∨ x = 15 then 1 else 0))) ]

/-- Names of the derived time-feature columns. -/
def timeFeatureNames : List String :=
  ["day_of_week", "day_of_month", "week_of_year", "month", "quarter",
   "year", "is_weekend", "is_month_start", "is_month_end", "is_payday"]

/-- `FeatureEngineer.create_time_features(df, date_column)`: raises
`ValueError` if the date column is absent, otherwise parses it with
`pd.to_datetime` and assigns the ten derived columns on a copy of the
input.  The value semantics of the copy is the returned DataFrame; the
Python-object-level copy discipline is captured by
`callCreateTimeFeatures` below. -/
def create_time_features (df : DataFrame) (dateColumn : String) :
    Except PyErr DataFrame :=
  match df.getCol dateColumn with
  | none =>
      .error (.valueError ("Date column '" ++ dateColumn ++ "' not found"))
  | some vs =>
      match vs.mapM PyVal.toDatetime with
      | none => .error (.valueError "unparseable date column")
      | some dates => .ok (df.setCols (timeFeatureCols dates))

end FeatureEngineer

/-- A heap of Python DataFrame objects, to make mutation observable:
`create_time_features` receives a reference, copies the referenced object
(`df = df.copy()`), performs all its column assignments on the fresh
object only, and returns a reference to it. -/
structure PyHeap where
  objs : List DataFrame
deriving Repr

/-- Calling `create_time_features` on the object at `ref`: the result is
the heap extended with the new (copied and feature-augmented) object and
a reference to it. -/
def callCreateTimeFeatures (h : PyHeap) (ref : Nat) (dateColumn : String) :
    Except PyErr (PyHeap × Nat) :=
  match h.objs[ref]? with
  | none => .error (.valueError "invalid reference")
  | some df =>
      match FeatureEngineer.create_time_features df dateColumn with
      | .error e => .error e
      | .ok out => .ok (⟨h.objs ++ [out]⟩, h.objs.length)

/-! ## SpendingPredictor.predict — per-day forecast arithmetic
(`backend/app/ai_models/predictors/spending_predictor.py`, lines 217-243)

The three member models (gradient boosting, random forest, ridge) are
opaque scikit-learn regressors; on each forecast day the code obtains one
point estimate from each and combines them with the fixed weights
`{'gbm': 0.4, 'rf': 0.4, 'ridge': 0.2}`.  The member estimates are
therefore parameters here, ranging over all reals. -/

/-- Python's built-in `round` (round half to even), on any ordered field
with a floor. -/
def pyRound {α : Type} [LinearOrderedField α] [FloorRing α] (x : α) : ℤ :=
  if x - ⌊x⌋ < 1 / 2 then ⌊x⌋
  else if (1 : α) / 2 < x - ⌊x⌋ then ⌊x⌋ + 1
  else if Even ⌊x⌋ then ⌊x⌋ else ⌊x⌋ + 1

/-- Python `round(x, 2)`: round to two decimal places. -/
def round2 {α : Type} [LinearOrderedField α] [FloorRing α] (x : α) : α :=
  (pyRound (100 * x) : α) / 100

/-- `np.std` of the three member predictions (population standard
deviation, `ddof = 0`). -/
noncomputable def np_std3 (a b c : ℝ) : ℝ :=
  let m := (a + b + c) / 3
  Real.sqrt (((a - m) ^ 2 + (b - m) ^ 2 + (c - m) ^ 2) / 3)

/-- The fixed-weight ensemble combination `0.4·gbm + 0.4·rf + 0.2·ridge`
(`model_weights` in `SpendingPredictor.__init__`). -/
def ensemblePoint (gbm rf ridge : ℝ) : ℝ :=
  0.4 * gbm + 0.4 * rf + 0.2 * ridge

/-- One forecast day's entry in the result lists of
`SpendingPredictor.predict`. -/
structure ForecastDay where
  prediction : ℝ
  lower_bound : ℝ
  upper_bound : ℝ

/-- The per-day computation of `SpendingPredictor.predict` from the three
member-model estimates:
`pred = Σ wᵢ·predᵢ`, `pred_std = np.std(model_preds)`,
`lower = max(0, pred - 1.96*pred_std)`, `upper = pred + 1.96*pred_std`,
each rounded to two decimals. -/
noncomputable def forecastDay (gbm rf ridge : ℝ) : ForecastDay :=
  let pred := ensemblePoint gbm rf ridge
  let s := np_std3 gbm rf ridge
  { prediction := round2 pred
    lower_bound := round2 (max 0 (pred - 1.96 * s))
    upper_bound := round2 (pred + 1.96 * s) }

/-! ## BasePredictor.validate_input and the predict access path
(`backend/app/ai_models/utils/base_model.py`, lines 147-155;
`backend/app/ai_models/predictors/spending_predictor.py`, lines 73-95
and 202-221) -/

/-- Input to `validate_input`: either a named-column DataFrame (only the
column names matter to the check) or a bare `np.ndarray`. -/
inductive ModelInput where
  | dataframe (columns : List String)
  | ndarray
deriving DecidableEq, Repr

/-- `BasePredictor.validate_input(X)`: when `X` is a DataFrame and
`feature_names` is nonempty, raise `ValueError` if any required feature
is missing from the columns; otherwise return `True`. -/
def validate_input (feature_names : List String) (X : ModelInput) :
    Except PyErr Bool :=
  match X with
  | .dataframe cols =>
      if feature_names ≠ [] then
        let missing := feature_names.filter (fun f => ¬ cols.contains f)
        if missing ≠ [] then
          .error (.valueError
            ("Missing features: " ++ String.intercalate ", " missing))
        else .ok true
      else .ok true
  | .ndarray => .ok true

/-- `SpendingPredictor.feature_names` (fixed in `__init__`). -/
def spendingPredictorFeatureNames : List String :=
  ["day_of_week", "day_of_month", "month", "is_weekend",
   "is_month_start", "is_month_end", "is_payday",
   "rolling_7d_avg", "rolling_14d_avg", "rolling_30d_avg",
   "spending_velocity", "spending_volatility",
   "lag_1", "lag_7", "lag_14", "lag_30"]

/-- The validation/raising behaviour of `SpendingPredictor.predict`, up
to and including `_create_features`' first use of the spending column:
the trained-flag check, then `_create_features`, which first calls
`create_time_features(df, 'date')` and then indexes
`df['total_spent']` (raising `KeyError` if that column is absent).
`validate_input` is never invoked on this path.  The remainder of
`predict` is numeric ensemble evaluation of the constructed features and
cannot raise a missing-column error, so it is not modelled here (its
per-day arithmetic is `forecastDay` above). -/
def spendingPredictAccess (is_trained : Bool) (df : DataFrame) :
    Except PyErr DataFrame :=
  if ¬ is_trained then
    .error (.valueError "Model not trained. Call train() first.")
  else
    match FeatureEngineer.create_time_features df "date" with
    | .error e => .error e
    | .ok df1 =>
        match df1.getCol "total_spent" with
        | none => .error (.keyError "total_spent")
        | some _ => .ok df1

/-! ## Result mappings and the AIService status wrapper
(`backend/app/ai_models/predictors/spending_predictor.py` lines 249-256,
`backend/app/ai_models/predictors/goal_scorer.py` lines 320-331,
`backend/app/ai_models/analyzers/anomaly_detector.py` lines 255-287,
`backend/app/ai_models/analyzers/emotional_analyzer.py` lines 44-103,
`backend/app/services/ai_service.py` lines 70-120, 146-180, 233-264,
286-314) -/

/-- A value in a result mapping returned to the API boundary. -/
inductive SVal where
  | str (s : String)
  | num (q : ℚ)
  | opaqueVal
deriving DecidableEq, Repr

/-- A Python dict with string keys, in insertion order. -/
def PyDict : Type := List (String × SVal)

/-- Dict lookup `d.get(k)`. -/
def dictGet (d : PyDict) (k : String) : Option SVal :=
  match d with
  | [] => none
  | (m, v) :: rest => if m = k then some v else dictGet rest k

/-- Dict assignment `d[k] = v`: overwrite in place if present, else
append (Python dicts preserve insertion order). -/
def dictSet (d : PyDict) (k : String) (v : SVal) : PyDict :=
  match d with
  | [] => [(k, v)]
  | (m, w) :: rest => if m = k then (k, v) :: rest else (m, w) :: dictSet rest k v

/-- Keys of the mapping returned by `SpendingPredictor.predict`
(lines 249-256). -/
def spendingPredictResultKeys : List String :=
  ["dates", "predictions", "lower_bounds", "upper_bounds",
   "total_predicted", "average_daily"]

/-- Keys of the mapping returned by `GoalAchievementScorer.predict`
(lines 320-331). -/
def goalPredictResultKeys : List String :=
  ["probability", "confidence_level", "risk_factors", "recommendations",
   "details"]

/-- Keys of the mapping returned by `AnomalyDetector.get_anomaly_summary`
(lines 265-287): one literal for the no-anomaly branch, one for the
nonempty branch. -/
def anomalySummaryKeys (anomaliesEmpty : Bool) : List String :=
  if anomaliesEmpty then
    ["total_anomalies", "anomaly_rate", "total_anomalous_spending",
     "by_type", "recent_anomalies"]
  else
    ["total_anomalies", "anomaly_rate", "total_anomalous_spending",
     "by_type", "recent_anomalies", "average_anomaly_amount"]

/-- Keys of the mapping returned by `EmotionalPatternAnalyzer.analyze`
for a given number of emotion-tagged rows (lines 63-103): the eight
`patterns` keys, plus `spending_persona` once at least 20 emotion-tagged
rows exist.  The `_empty_analysis` mapping (0 rows) has the same eight
keys. -/
def analyzeResultKeys (emotionalCount : Nat) : List String :=
  ["summary", "by_emotion", "by_time", "by_category", "triggers",
   "regret_analysis", "recommendations", "risk_score"] ++
  (if 20 ≤ emotionalCount then ["spending_persona"] else [])

/-- `AIService.predict_spending` (lines 70-120): the wrapper that turns
the component call into a status-discriminated mapping.  `histLen` is
`len(daily_df)`; `alreadyTrained` is `spending_predictor.is_trained`;
`trainResult` and `componentResult` are the outcomes of the wrapped
`train`/`predict` calls (parameters, since their numerics are opaque
here); `context` is the added context sub-mapping. -/
def predict_spending_service (histLen : Nat) (alreadyTrained : Bool)
    (trainResult : Except PyErr Unit)
    (componentResult : Except PyErr PyDict) (context : SVal) : PyDict :=
  if histLen < 30 then
    [("status", .str "insufficient_data"),
     ("message", .str "Need at least 30 days of spending history for predictions"),
     ("days_available", .num histLen)]
  else
    match (if alreadyTrained then Except.ok () else trainResult) with
    | .error e => [("status", .str "error"), ("message", .str e.message)]
    | .ok _ =>
        match componentResult with
        | .error e => [("status", .str "error"), ("message", .str e.message)]
        | .ok preds =>
            dictSet (dictSet preds "status" (.str "success")) "context" context

/-- `AIService.score_goal` (lines 146-180). -/
def score_goal_service (alreadyTrained : Bool)
    (trainResult : Except PyErr Unit)
    (componentResult : Except PyErr PyDict) : PyDict :=
  match (if alreadyTrained then Except.ok () else trainResult) with
  | .error e => [("status", .str "error"), ("message", .str e.message)]
  | .ok _ =>
      match componentResult with
      | .error e => [("status", .str "error"), ("message", .str e.message)]
      | .ok result => dictSet result "status" (.str "success")

/-- `AIService.detect_anomalies` (lines 233-264): `hasData` is
`not expenses_df.empty`; `summary` the component's summary mapping. -/
def detect_anomalies_service (hasData : Bool) (summary : PyDict) : PyDict :=
  if ¬ hasData then
    [("status", .str "no_data"),
     ("message", .str "No expense data available")]
  else
    dictSet summary "status" (.str "success")

/-- `AIService.analyze_emotional_patterns` (lines 286-314). -/
def analyze_emotional_service (hasData : Bool) (analysis : PyDict)
    (periodDays : Nat) : PyDict :=
  if ¬ hasData then
    [("status", .str "no_data"),
     ("message", .str "No expense data available"),
     ("recommendations", .str "Start logging expenses to get insights")]
  else
    dictSet (dictSet analysis "status" (.str "success")) "period_days"
      (.num periodDays)

/-- The status vocabulary of the spec's discriminator contract. -/
def allowedStatuses : List String :=
  ["success", "insufficient_data", "no_data", "error"]

/-! ## AnomalyDetector
(`backend/app/ai_models/analyzers/anomaly_detector.py`) -/

/-- Mean of a list of floats (`Series.mean()`), exact over `ℚ`. -/
def qmean (l : List ℚ) : ℚ :=
  l.sum / l.length

/-- Sample standard deviation (`Series.std()`, `ddof = 1`).  On a
singleton pandas yields NaN; the call sites below either guard that case
or never read the value, and Lean's division by zero makes it `0` here. -/
noncomputable def sampleStd (l : List ℚ) : ℝ :=
  Real.sqrt ((l.map (fun x => ((x : ℝ) - (qmean l : ℝ)) ^ 2)).sum /
    ((l.length : ℝ) - 1))

/-- `Series.quantile(p)` with pandas' default linear interpolation. -/
def quantileQ (l : List ℚ) (p : ℚ) : ℚ :=
  let s := List.insertionSort (· ≤ ·) l
  let n := s.length
  if n = 0 then 0
  else
    let h : ℚ := ((n : ℚ) - 1) * p
    let lo : Nat := (⌊h⌋).toNat
    let frac : ℚ := h - ⌊h⌋
    let a := s.getD lo 0
    let b := s.getD (min (lo + 1) (n - 1)) 0
    a + frac * (b - a)

/-- `Series.median()`. -/
def medianQ (l : List ℚ) : ℚ :=
  quantileQ l (1 / 2)

/-- One expense transaction as the detector reads it.  `hour` is the
parsed hour of `expense_time`; the source substitutes noon when that
column is absent, and the column's presence is a separate flag at the
call sites. -/
structure TxnRow where
  amount : ℚ
  expense_date : Date
  category_name : String
  hour : Nat
deriving DecidableEq, Repr

/-- `self.stats['amount']` (lines 85-92). -/
structure AmountStats where
  mean : ℚ
  std : ℝ
  median : ℚ
  q1 : ℚ
  q3 : ℚ
  iqr : ℚ

/-- One entry of `self.stats['categories']` (lines 104-112). -/
structure CatStats where
  mean : ℚ
  std : ℝ
  count : Nat

/-- `self.stats['daily']` (lines 94-100). -/
structure DailyStats where
  mean : ℚ
  std : ℝ
  median : ℚ

/-- The baseline statistics computed by `_calculate_statistics`.
`categories` is present exactly when the fitted frame had a
`category_name` column.  (The source also stores per-day-of-week
mean/std, which no detection rule ever reads; that entry is omitted.) -/
structure AnomalyStats where
  amount : AmountStats
  daily : DailyStats
  categories : Option (List (String × CatStats))

/-- First-occurrence-ordered distinct elements (`Series.unique()`). -/
def uniqueList {α : Type} [DecidableEq α] (l : List α) : List α :=
  l.foldl (fun acc k => if k ∈ acc then acc else acc ++ [k]) []

/-- `_calculate_statistics` (lines 81-119): overall amount stats, daily
totals (group by date, sum), and per-category stats where a category
with fewer than 2 samples gets `std = 0.3 × mean`. -/
noncomputable def calcStatistics (rows : List TxnRow) (hasCatCol : Bool) :
    AnomalyStats :=
  let amts := rows.map (·.amount)
  let daySums := (uniqueList (rows.map (·.expense_date))).map
    (fun d => ((rows.filter (fun r => r.expense_date = d)).map (·.amount)).sum)
  { amount :=
      { mean := qmean amts, std := sampleStd amts, median := medianQ amts,
        q1 := quantileQ amts (1 / 4), q3 := quantileQ amts (3 / 4),
        iqr := quantileQ amts (3 / 4) - quantileQ amts (1 / 4) }
    daily :=
      { mean := qmean daySums, std := sampleStd daySums,
        median := medianQ daySums }
    categories :=
      if hasCatCol then
        some ((uniqueList (rows.map (·.category_name))).map (fun c =>
          let cs := (rows.filter (fun r => r.category_name = c)).map (·.amount)
          (c, { mean := qmean cs,
                std := if 1 < cs.length then sampleStd cs
                       else ((qmean cs * (3 / 10) : ℚ) : ℝ),
                count := cs.length })))
      else none }

/-- `_create_anomaly_features` (lines 121-141): per row, the triple
(amount, overall z-score, category z-score), `1e-6` added to each
standard deviation. -/
noncomputable def anomalyFeatures (st : AnomalyStats) (rows : List TxnRow) :
    List (ℚ × ℝ × ℝ) :=
  rows.map (fun r =>
    let amount_z := ((r.amount : ℝ) - (st.amount.mean : ℝ)) /
      (st.amount.std + 1 / 1000000)
    let cat_z :=
      match st.categories with
      | some cats =>
          match cats.find? (fun p => p.1 = r.category_name) with
          | some p => ((r.amount : ℝ) - (p.2.mean : ℝ)) / (p.2.std + 1 / 1000000)
          | none => 0
      | none => 0
    (r.amount, amount_z, cat_z))

/-- The mutable state of an `AnomalyDetector` instance. -/
structure AnomalyDetectorState where
  contamination : ℚ
  is_fitted : Bool
  stats : Option AnomalyStats

/-- `AnomalyDetector()` with the default 5% contamination: not fitted,
no statistics. -/
def AnomalyDetector.init : AnomalyDetectorState :=
  { contamination := 1 / 20, is_fitted := false, stats := none }

/-- `AnomalyDetector.fit` (lines 50-79): an empty frame returns `self`
untouched; otherwise the baseline statistics are stored and the
isolation-forest (whose fitted parameters are opaque sklearn state) is
trained — and `is_fitted` set — only when `len(features) > 10`. -/
noncomputable def AnomalyDetector.fit (rows : List TxnRow)
    (hasCatCol : Bool) (st : AnomalyDetectorState) : AnomalyDetectorState :=
  if rows = [] then st
  else if 10 <
      (anomalyFeatures (calcStatistics rows hasCatCol) rows).length then
    { st with stats := some (calcStatistics rows hasCatCol),
              is_fitted := true }
  else
    { st with stats := some (calcStatistics rows hasCatCol) }

/-- One row of the `detect_anomalies` result frame: the source adds the
columns `is_anomaly` (init `False`), `anomaly_type` (init null),
`anomaly_reason` (init null) and, when the forest ran, `ml_score`. -/
structure AnnotatedRow where
  row : TxnRow
  is_anomaly : Bool
  anomaly_type : Option String
  anomaly_reason : Option String
  ml_score : Option ℝ

/-- The freshly initialised annotation of one row (lines 161-165). -/
def initAnnotated (r : TxnRow) : AnnotatedRow :=
  { row := r, is_anomaly := false, anomaly_type := none,
    anomaly_reason := none, ml_score := none }

/-- The `high_amount` mask of `_detect_amount_anomalies` (lines 199-208):
amounts above `Q3 + 1.5·IQR` get flagged and labelled. -/
def detect_high_amount_rule (st : AmountStats) (r : AnnotatedRow) :
    AnnotatedRow :=
  if r.row.amount > st.q3 + (3 / 2) * st.iqr then
    { r with is_anomaly := true, anomaly_type := some "high_amount",
             anomaly_reason := some "Amount exceeds typical range" }
  else r

/-- The `very_high` mask of `_detect_amount_anomalies` (lines 204-211):
amounts above mean + 3σ get the label and reason overwritten with
`very_high_amount` — note that this mask only rewrites the label
columns, it does not set `is_anomaly`. -/
noncomputable def detect_very_high_rule (st : AmountStats) (r : AnnotatedRow) :
    AnnotatedRow :=
  if (r.row.amount : ℝ) > (st.mean : ℝ) + 3 * st.std then
    { r with anomaly_type := some "very_high_amount",
             anomaly_reason :=
               some "Amount significantly exceeds average (3+ std dev)" }
  else r

/-- `_detect_amount_anomalies` on one row (lines 192-213): both masks are
evaluated against the incoming `amount`, in source order. -/
noncomputable def detect_amount_row (st : AmountStats) (r : AnnotatedRow) :
    AnnotatedRow :=
  detect_very_high_rule st (detect_high_amount_rule st r)

/-- `_detect_category_anomalies` on one row (lines 215-233): for each
category baseline, rows of that category above mean + 2.5σ that are not
already flagged become `category_outlier`. -/
noncomputable def detect_category_row (cats : List (String × CatStats))
    (r0 : AnnotatedRow) : AnnotatedRow :=
  cats.foldl (fun r p =>
    if r.row.category_name = p.1 ∧
        (r.row.amount : ℝ) > (p.2.mean : ℝ) + 2.5 * p.2.std ∧
        ¬ r.is_anomaly then
      { r with is_anomaly := true, anomaly_type := some "category_outlier",
               anomaly_reason := some ("Unusually high for " ++ p.1) }
    else r) r0

/-- `_detect_timing_anomalies` on one row (lines 235-253): only when the
frame has an `expense_time` column; late-night (≥23h or ≤4h) rows above
twice the overall median get flagged and labelled `timing` (the label
overwrites any earlier one; `is_anomaly` is only ever set, never
cleared). -/
def detect_timing_row (hasTimeCol : Bool) (st : AmountStats)
    (r : AnnotatedRow) : AnnotatedRow :=
  if hasTimeCol ∧ (23 ≤ r.row.hour ∨ r.row.hour ≤ 4) ∧
      r.row.amount > st.median * 2 then
    { r with is_anomaly := true, anomaly_type := some "timing",
             anomaly_reason := some "High spending during late night hours" }
  else r

/-- The ML stage of `detect_anomalies` (lines 173-188), run only when the
forest was fitted.  `mlAnomaly` and `mlScore` are the opaque isolation
forest's verdict and inverted decision score for this row.  The stage
sets `is_anomaly` where not already set, fills label/reason only where
still null, and attaches `ml_score` to every row. -/
noncomputable def ml_stage_row (fitted : Bool) (mlAnomaly : Bool)
    (mlScore : ℝ) (r : AnnotatedRow) : AnnotatedRow :=
  if fitted then
    let r1 := if mlAnomaly ∧ ¬ r.is_anomaly then { r with is_anomaly := true }
              else r
    let r2 := if mlAnomaly ∧ r1.anomaly_type = none then
                { r1 with anomaly_type := some "pattern" }
              else r1
    let mlReason := "Unusual pattern detected by ML model"
    let r3 := if mlAnomaly ∧ r2.anomaly_reason = none then
                { r2 with anomaly_reason := some mlReason }
              else r2
    { r3 with ml_score := some mlScore }
  else r

/-- `detect_anomalies` restricted to one row of a fitted detector: the
rule stages in source order (amount, category, timing) followed by the
ML stage.  The category stage runs only when category baselines exist
and the frame has a `category_name` column. -/
noncomputable def detect_anomalies_row (stats : AnomalyStats)
    (hasCatCol hasTimeCol fitted : Bool) (mlAnomaly : Bool) (mlScore : ℝ)
    (r : TxnRow) : AnnotatedRow :=
  let r1 := detect_amount_row stats.amount (initAnnotated r)
  let r2 :=
    match stats.categories, hasCatCol with
    | some cats, true => detect_category_row cats r1
    | _, _ => r1
  let r3 := detect_timing_row hasTimeCol stats.amount r2
  ml_stage_row fitted mlAnomaly mlScore r3

/-! ## SpendingPredictor.train
(`backend/app/ai_models/predictors/spending_predictor.py`, lines 73-171) -/

/-- One row of the daily-spending frame passed to `train`. -/
structure DailyRow where
  date : Date
  total_spent : ℚ
deriving DecidableEq, Repr

/-- `Series.shift(k).fillna(0)`: the lag-k column. -/
def lagColumn (xs : List ℚ) (k : Nat) : List ℚ :=
  (List.range xs.length).map (fun i => if i < k then 0 else xs.getD (i - k) 0)

/-- `Series.rolling(w, min_periods=1).mean()`. -/
def rollingMeanCol (w : Nat) (xs : List ℚ) : List ℚ :=
  (List.range xs.length).map (fun i =>
    let win := (xs.take (i + 1)).drop (i + 1 - w)
    win.sum / win.length)

/-- `Series.diff().fillna(0)`: first-difference velocity. -/
def velocityCol (xs : List ℚ) : List ℚ :=
  (List.range xs.length).map (fun i =>
    if i = 0 then 0 else xs.getD i 0 - xs.getD (i - 1) 0)

/-- `Series.rolling(w, min_periods=1).std().fillna(0)`: a window of one
observation has undefined sample deviation (NaN), which `fillna` turns
into 0. -/
noncomputable def rollingStdCol (w : Nat) (xs : List ℚ) : List ℝ :=
  (List.range xs.length).map (fun i =>
    let win := (xs.take (i + 1)).drop (i + 1 - w)
    if win.length ≤ 1 then 0 else sampleStd win)

/-- One row of the feature frame built by
`SpendingPredictor._create_features` (lines 73-95): the input columns
plus the time features (those `predict` reads), lags 1/7/14/30, rolling
7/14/30 means, velocity and 14-window volatility. -/
structure SpFeatRow where
  date : Date
  total_spent : ℚ
  day_of_week : Int
  day_of_month : Int
  month : Int
  is_weekend : Int
  is_month_start : Int
  is_month_end : Int
  is_payday : Int
  rolling_7d_avg : ℚ
  rolling_14d_avg : ℚ
  rolling_30d_avg : ℚ
  spending_velocity : ℚ
  spending_volatility : ℝ
  lag_1 : ℚ
  lag_7 : ℚ
  lag_14 : ℚ
  lag_30 : ℚ

/-- `SpendingPredictor._create_features` on the typed daily frame. -/
noncomputable def sp_create_features (rows : List DailyRow) : List SpFeatRow :=
  let xs := rows.map (·.total_spent)
  (List.range rows.length).map (fun i =>
    let d := (rows.getD i ⟨⟨1970, 1, 1⟩, 0⟩).date
    let dow := Date.dayOfWeek d
    let dom : Int := d.day
    { date := d
      total_spent := xs.getD i 0
      day_of_week := dow
      day_of_month := dom
      month := d.month
      is_weekend := if dow = 5 ∨ dow = 6 then 1 else 0
      is_month_start := if dom ≤ 5 then 1 else 0
      is_month_end := if 25 ≤ dom then 1 else 0
      is_payday := if dom = 1 ∨ dom = 15 then 1 else 0
      rolling_7d_avg := (rollingMeanCol 7 xs).getD i 0
      rolling_14d_avg := (rollingMeanCol 14 xs).getD i 0
      rolling_30d_avg := (rollingMeanCol 30 xs).getD i 0
      spending_velocity := (velocityCol xs).getD i 0
      spending_volatility := (rollingStdCol 14 xs).getD i 0
      lag_1 := (lagColumn xs 1).getD i 0
      lag_7 := (lagColumn xs 7).getD i 0
      lag_14 := (lagColumn xs 14).getD i 0
      lag_30 := (lagColumn xs 30).getD i 0 })

/-- The train-relevant state of a `SpendingPredictor` instance. -/
structure SpendingPredictorTrainState where
  is_trained : Bool
  training_samples : Option Nat
deriving DecidableEq, Repr

/-- A fresh `SpendingPredictor()`. -/
def SpendingPredictor.initState : SpendingPredictorTrainState :=
  { is_trained := false, training_samples := none }

/-- `SpendingPredictor.train` (lines 97-171): build the feature frame,
`dropna()` (a no-op here — every embedded feature value is total because
the source `fillna(0)`s each lag/rolling column, so only NaN already
present in the input could be dropped and the typed rows have none),
raise `ValueError` below 60 rows, otherwise fit the three regressors
(opaque sklearn numerics, along with the metric dictionary they
produce), mark the model trained and record the sample count. -/
noncomputable def SpendingPredictor.train (rows : List DailyRow)
    (st : SpendingPredictorTrainState) :
    Except PyErr SpendingPredictorTrainState :=
  let df := sp_create_features rows
  if df.length < 60 then
    .error (.valueError "Need at least 60 days of data for training")
  else
    .ok { st with is_trained := true, training_samples := some df.length }

/-! ## BasePredictor.save / load persistence
(`backend/app/ai_models/utils/base_model.py`, lines 27-37 and 110-138) -/

/-- The metadata record of the sibling JSON artifact, with the same
defaults `load` applies via `dict.get` (`metrics` → `{}`,
`feature_names` → `[]`, `metadata` → `{}`, `training_date` possibly
null). -/
structure ModelMetadata where
  metrics : List (String × ℚ)
  feature_names : List String
  training_date : Option String
  extra : List (String × String)
deriving DecidableEq, Repr

/-- A file on disk: either the pickled model blob or the metadata JSON. -/
inductive StoredFile where
  | blob
  | meta (m : ModelMetadata)
deriving DecidableEq, Repr

/-- The directory contents `load` consults, path → file. -/
def FileSystem : Type := List (String × StoredFile)

/-- `os.path.exists` + read. -/
def fsLookup (fs : FileSystem) (p : String) : Option StoredFile :=
  match fs with
  | [] => none
  | (q, f) :: rest => if q = p then some f else fsLookup rest p

/-- The persistence-relevant state of a `BasePredictor`
(`__init__`, lines 27-37). -/
structure BaseState where
  model_name : String
  version : String
  hasModel : Bool
  is_trained : Bool
  training_date : Option String
  metrics : List (String × ℚ)
  feature_names : List String
  extra : List (String × String)
deriving DecidableEq, Repr

/-- `BasePredictor.__init__(model_name, version)`. -/
def BasePredictor.initState (name version : String) : BaseState :=
  { model_name := name, version := version, hasModel := false,
    is_trained := false, training_date := none, metrics := [],
    feature_names := [], extra := [] }

/-- `os.path.join(path, f"{model_name}_v{version}.pkl")`. -/
def modelFilePath (st : BaseState) (path : String) : String :=
  path ++ "/" ++ st.model_name ++ "_v" ++ st.version ++ ".pkl"

/-- `os.path.join(path, f"{model_name}_v{version}_metadata.json")`. -/
def metadataFilePath (st : BaseState) (path : String) : String :=
  path ++ "/" ++ st.model_name ++ "_v" ++ st.version ++ "_metadata.json"

/-- `BasePredictor.load` (lines 110-138): raise `FileNotFoundError` when
the blob is absent (Python exception semantics: `self` is then left
exactly as it was); otherwise unpickle the blob, overwrite the metadata
fields only if the sibling JSON exists (`training_date` only when that
key is non-null), and finally set `is_trained = True`. -/
def BasePredictor.load (fs : FileSystem) (path : String) (st : BaseState) :
    Except PyErr BaseState :=
  match fsLookup fs (modelFilePath st path) with
  | none =>
      .error (.fileNotFoundError
        ("Model file not found: " ++ modelFilePath st path))
  | some _ =>
      let st1 := { st with hasModel := true }
      let st2 :=
        match fsLookup fs (metadataFilePath st path) with
        | some (.meta m) =>
            { st1 with metrics := m.metrics,
                       feature_names := m.feature_names,
                       extra := m.extra,
                       training_date :=
                         match m.training_date with
                         | some t => some t
                         | none => st1.training_date }
        | _ => st1
      .ok { st2 with is_trained := true }

/-! ## EmotionalPatternAnalyzer
(`backend/app/ai_models/analyzers/emotional_analyzer.py`) -/

/-- One expense row as the analyzer reads it.  `primary_emotion` is null
for rows without an emotion annotation. -/
structure EmoRow where
  amount : ℚ
  primary_emotion : Option String
  was_necessary : Bool
  stress_level : ℚ
  regret_level : Option ℚ
deriving DecidableEq, Repr

/-- An emotion-tagged frame together with the presence of its optional
columns (`was_necessary`, `stress_level`, `regret_level`), which the
source tests with `in df.columns`. -/
structure EmoDF where
  rows : List EmoRow
  hasNecessaryCol : Bool
  hasStressCol : Bool
  hasRegretCol : Bool
deriving DecidableEq, Repr

namespace EmotionalPatternAnalyzer

/-- `RISK_EMOTIONS` (line 36). -/
def RISK_EMOTIONS : List String := ["impulsive", "bored", "tired"]

/-- `NEGATIVE_EMOTIONS` (line 34). -/
def NEGATIVE_EMOTIONS : List String :=
  ["stressed", "anxious", "frustrated", "sad", "guilty"]

/-- `Series.isin` on a possibly-null emotion cell. -/
def emotionIn (l : List String) (e : Option String) : Bool :=
  match e with
  | some s => l.contains s
  | none => false

/-- Factor 1 of `_calculate_risk_score` (lines 328-331): impulsive-emotion
share, `min(25, share*100)`, share 0 on an empty frame. -/
def risk_factor_impulsive (df : EmoDF) : ℚ :=
  min 25
    ((if 0 < df.rows.length then
        (df.rows.countP (fun r =>
          emotionIn RISK_EMOTIONS r.primary_emotion) : ℚ) / df.rows.length
      else 0) * 100)

/-- Factor 2 (lines 333-336): unnecessary-purchase share (the mean of the
boolean series `was_necessary == False`), `min(25, share*50)`, only when
the column exists.  This factor has no emptiness guard in the source
(pandas would yield NaN there); the analyzer only reaches it with a
nonempty frame, where Lean's `0/0 = 0` is never exercised. -/
def risk_factor_unnecessary (df : EmoDF) : ℚ :=
  if df.hasNecessaryCol then
    min 25 (((df.rows.countP (fun r => ¬ r.was_necessary) : ℚ) /
      df.rows.length) * 50)
  else 0

/-- Factor 3 (lines 338-342): high-stress (≥7) share, `min(20, share*50)`. -/
def risk_factor_stress (df : EmoDF) : ℚ :=
  if df.hasStressCol then
    min 20
      ((if 0 < df.rows.length then
          (df.rows.countP (fun r => 7 ≤ r.stress_level) : ℚ) / df.rows.length
        else 0) * 50)
  else 0

/-- Factor 4 (lines 344-347): negative-emotion share, `min(15, share*30)`. -/
def risk_factor_negative (df : EmoDF) : ℚ :=
  min 15
    ((if 0 < df.rows.length then
        (df.rows.countP (fun r =>
          emotionIn NEGATIVE_EMOTIONS r.primary_emotion) : ℚ) / df.rows.length
      else 0) * 30)

/-- Factor 5 (lines 349-353): high-regret (≥7) share, `min(15, share*50)`;
null regret values compare false in pandas. -/
def risk_factor_regret (df : EmoDF) : ℚ :=
  if df.hasRegretCol then
    min 15
      ((if 0 < df.rows.length then
          (df.rows.countP (fun r =>
            match r.regret_level with
            | some v => 7 ≤ v
            | none => false) : ℚ) / df.rows.length
        else 0) * 50)
  else 0

/-- `_calculate_risk_score` (lines 321-355): the five capped additive
factors, then `min(100, round(score))` with Python's
round-half-to-even. -/
def calculate_risk_score (df : EmoDF) : Int :=
  min 100 (pyRound
    (risk_factor_impulsive df + risk_factor_unnecessary df +
     risk_factor_stress df + risk_factor_negative df +
     risk_factor_regret df))

/-- Python `round(x, 1)`. -/
def round1 (q : ℚ) : ℚ :=
  (pyRound (10 * q) : ℚ) / 10

/-- The mapping returned by `_identify_spending_persona`
(lines 472-481). -/
structure PersonaResult where
  persona : String
  description : String
  stress_driven : ℚ
  impulsive : ℚ
  planned : ℚ
  unnecessary_rate : ℚ
deriving DecidableEq, Repr

/-- The share of rows whose `primary_emotion` equals `e`
(`(df['primary_emotion'] == emotion).mean()`, line 440). -/
def emotion_pct (rows : List EmoRow) (e : String) : ℚ :=
  (rows.countP (fun r => r.primary_emotion = some e) : ℚ) / rows.length

/-- The share of rows marked not necessary (line 444). -/
def unnecessary_pct (rows : List EmoRow) : ℚ :=
  (rows.countP (fun r => ¬ r.was_necessary) : ℚ) / rows.length

/-- The ordered threshold rules of `_identify_spending_persona`
(lines 456-470). -/
def persona_label (stressed_pct impulsive_pct planned_pct
    unnecessary_rate : ℚ) : String × String :=
  if planned_pct > 1 / 2 then
    ("The Planner", "You think before you spend. Keep up the great work!")
  else if stressed_pct > 3 / 10 then
    ("The Stress Spender",
     "Stress triggers your spending. Focus on stress management techniques.")
  else if impulsive_pct > 1 / 5 then
    ("The Impulse Buyer",
     "Spontaneity drives your purchases. Implement cooling-off periods.")
  else if unnecessary_rate > 2 / 5 then
    ("The Treat-Yourself Type",
     "You like to indulge. Budget for treats so they don't derail your goals.")
  else
    ("The Balanced Spender",
     "Your spending is fairly balanced. Stay mindful to maintain this.")

/-- `_identify_spending_persona` (lines 433-481): the per-emotion shares
and the unnecessary-purchase share feed the ordered threshold rule chain
(the initialised-but-never-invoked clustering structure plays no part).
When the frame has no `was_necessary` column the source's
`(df.get('was_necessary', True) == False).mean()` calls `.mean()` on a
Python bool and raises `AttributeError`; the `happy`/`bored` shares and
the average-stress feature are computed by the source but never read by
any rule, so they are omitted here. -/
def identify_spending_persona (df : EmoDF) : Except PyErr PersonaResult :=
  if ¬ df.hasNecessaryCol then
    .error (.attributeError "'bool' object has no attribute 'mean'")
  else
    .ok { persona := (persona_label (emotion_pct df.rows "stressed")
            (emotion_pct df.rows "impulsive") (emotion_pct df.rows "planned")
            (unnecessary_pct df.rows)).1
          description := (persona_label (emotion_pct df.rows "stressed")
            (emotion_pct df.rows "impulsive") (emotion_pct df.rows "planned")
            (unnecessary_pct df.rows)).2
          stress_driven := round1 (emotion_pct df.rows "stressed" * 100)
          impulsive := round1 (emotion_pct df.rows "impulsive" * 100)
          planned := round1 (emotion_pct df.rows "planned" * 100)
          unnecessary_rate := round1 (unnecessary_pct df.rows * 100) }

/-- The rows `analyze` actually analyzes:
`expenses_df[expenses_df['primary_emotion'].notna()]` (line 58). -/
def emotionalRows (rows : List EmoRow) : List EmoRow :=
  rows.filter (fun r => r.primary_emotion.isSome)

/-- The `risk_score` field of the mapping `analyze` returns: `0` from the
`_empty_analysis` literal when no emotion-tagged rows exist, else
`_calculate_risk_score` of the emotion-tagged subset (lines 54-75). -/
def analyze_risk_score (rows : List EmoRow) (hN hS hR : Bool) : Int :=
  let emo := emotionalRows rows
  if emo = [] then 0 else calculate_risk_score ⟨emo, hN, hS, hR⟩

/-- The `spending_persona` field of the mapping `analyze` returns:
present only when at least 20 emotion-tagged rows exist (lines 81-82). -/
def analyze_spending_persona (rows : List EmoRow) (hN hS hR : Bool) :
    Option (Except PyErr PersonaResult) :=
  let emo := emotionalRows rows
  if emo = [] then none
  else if 20 ≤ emo.length then
    some (identify_spending_persona ⟨emo, hN, hS, hR⟩)
  else none

end EmotionalPatternAnalyzer

/-! ## Concrete inputs used by the counterexample and witness theorems -/

/-- A one-row frame with a date column and a spending column. -/
def c9df : DataFrame :=
  ⟨[("date", [PyVal.date ⟨2024, 3, 15⟩]), ("total_spent", [PyVal.rat 10])]⟩

/-- The frame `create_time_features` returns for `c9df`. -/
def c9out : DataFrame :=
  c9df.setCols (FeatureEngineer.timeFeatureCols [⟨2024, 3, 15⟩])

/-- A frame with a date column but no `total_spent` column. -/
def dfNoSpend : DataFrame := ⟨[("date", [PyVal.date ⟨2024, 3, 15⟩])]⟩

/-- The frame `create_time_features` derives from `dfNoSpend`. -/
def dfNoSpendFeat : DataFrame :=
  dfNoSpend.setCols (FeatureEngineer.timeFeatureCols [⟨2024, 3, 15⟩])

/-- Overall amount statistics of an everyday baseline (mean $50, σ $10,
quartiles $45/$55). -/
noncomputable def scenarioAmountStats : AmountStats :=
  { mean := 50, std := 10, median := 50, q1 := 45, q3 := 55, iqr := 10 }

/-- The category baseline of spec Scenario B: mean $50, σ $10. -/
noncomputable def scenarioCatStats : CatStats :=
  { mean := 50, std := 10, count := 5 }

/-- A fitted detector's statistics with the Scenario-B category
baseline. -/
noncomputable def scenarioStats : AnomalyStats :=
  { amount := scenarioAmountStats,
    daily := { mean := 50, std := 10, median := 50 },
    categories := some [("Dining", scenarioCatStats)] }

/-- The single $5,000 transaction of spec Scenario B. -/
def scenarioTxn : TxnRow :=
  { amount := 5000, expense_date := ⟨2024, 3, 15⟩, category_name := "Dining",
    hour := 12 }

/-- The Scenario-B transaction as annotated by a fitted detector whose
category baseline for the transaction's category is mean \$50 / σ \$10:
`detect_anomalies_row` with arbitrary overall statistics `ast`/`dst`,
arbitrary category sample count, no `expense_time` column, and the
opaque isolation-forest verdict `mlA`/`ms`. -/
noncomputable def c4Detect (ast : AmountStats) (dst : DailyStats)
    (cat : String) (cnt : Nat) (mlA : Bool) (ms : ℝ) : AnnotatedRow :=
  detect_anomalies_row ⟨ast, dst, some [(cat, ⟨50, 10, cnt⟩)]⟩ true false true
    mlA ms
    { amount := 5000, expense_date := ⟨2024, 3, 15⟩, category_name := cat,
      hour := 12 }

/-- An unremarkable transaction. -/
def plainTxn : TxnRow :=
  { amount := 20, expense_date := ⟨2024, 1, 1⟩, category_name := "Food",
    hour := 12 }

/-- Exactly ten observations. -/
def txns10 : List TxnRow := List.replicate 10 plainTxn

/-- Eleven observations. -/
def txns11 : List TxnRow := List.replicate 11 plainTxn

/-- An unremarkable daily-spending row. -/
def plainDay : DailyRow := { date := ⟨2024, 1, 1⟩, total_spent := 20 }

/-- A 59-day daily series. -/
def days59 : List DailyRow := List.replicate 59 plainDay

/-- A 60-day daily series. -/
def days60 : List DailyRow := List.replicate 60 plainDay

/-- A base-model state that already carries metrics and feature names
(as e.g. a `SpendingPredictor`, whose `__init__` fills
`feature_names`, always does). -/
def c6state : BaseState :=
  { model_name := "m", version := "1.0.0", hasModel := false,
    is_trained := false, training_date := none, metrics := [("mae", 2)],
    feature_names := ["f1"], extra := [] }

/-- A directory holding only the model blob for `c6state` under path
`"models"` — no metadata sibling. -/
def c6fsBlobOnly : FileSystem := [("models/m_v1.0.0.pkl", StoredFile.blob)]

/-- A planned, necessary, zero-stress, low-regret purchase row. -/
def plannedRow : EmoRow :=
  { amount := 25, primary_emotion := some "planned", was_necessary := true,
    stress_level := 0, regret_level := some 2 }

/-- Twenty such rows. -/
def plannedRows20 : List EmoRow := List.replicate 20 plannedRow

deriving instance DecidableEq for Except

/-! ## Helper lemmas -/

namespace DataFrame

theorem getCol_setCol_self (df : DataFrame) (n : String) (vs : List PyVal) :
    getCol (setCol df n vs) n = some vs := by
  show getCol.go n (setColList df.cols n vs) = some vs
  induction df.cols with
  | nil => simp [setColList, getCol.go]
  | cons p rest ih =>
    obtain ⟨m, ws⟩ := p
    by_cases h : m = n
    · simp [setColList, h, getCol.go]
    · simp [setColList, h, getCol.go, ih]

theorem getCol_setCol_ne (df : DataFrame) {n m : String} (vs : List PyVal)
    (h : m ≠ n) : getCol (setCol df n vs) m = getCol df m := by
  show getCol.go m (setColList df.cols n vs) = getCol.go m df.cols
  induction df.cols with
  | nil => simp [setColList, getCol.go, Ne.symm h]
  | cons p rest ih =>
    obtain ⟨k, ws⟩ := p
    by_cases hk : k = n
    · subst hk
      simp [setColList, getCol.go, Ne.symm h]
    · by_cases hm : k = m
      · simp [setColList, hk, getCol.go, hm, h]
      · simp [setColList, hk, getCol.go, hm, ih]

theorem setCol_eq_self (df : DataFrame) {n : String} {vs : List PyVal}
    (h : getCol df n = some vs) : setCol df n vs = df := by
  obtain ⟨l⟩ := df
  show DataFrame.mk (setColList l n vs) = DataFrame.mk l
  congr 1
  induction l with
  | nil => simp [getCol, getCol.go] at h
  | cons p rest ih =>
    obtain ⟨m, ws⟩ := p
    by_cases hm : m = n
    · subst hm
      simp [getCol, getCol.go] at h
      simp [setColList, h]
    · simp [getCol, getCol.go, hm] at h
      simp [setColList, hm]
      exact ih h

theorem getCol_setCols_not_mem (df : DataFrame)
    (L : List (String × List PyVal)) {n : String}
    (h : n ∉ L.map Prod.fst) : getCol (setCols df L) n = getCol df n := by
  induction L generalizing df with
  | nil => rfl
  | cons p rest ih =>
    simp only [List.map_cons, List.mem_cons] at h
    push_neg at h
    show getCol (setCols (setCol df p.1 p.2) rest) n = getCol df n
    rw [ih _ h.2, getCol_setCol_ne _ _ h.1]

theorem getCol_setCols_mem (df : DataFrame)
    (L : List (String × List PyVal)) (p : String × List PyVal)
    (hmem : p ∈ L) (hnd : (L.map Prod.fst).Nodup) :
    getCol (setCols df L) p.1 = some p.2 := by
  induction L generalizing df with
  | nil => cases hmem
  | cons q rest ih =>
    simp only [List.map_cons, List.nodup_cons] at hnd
    rcases List.mem_cons.mp hmem with h | h
    · subst h
      show getCol (setCols (setCol df p.1 p.2) rest) p.1 = some p.2
      rw [getCol_setCols_not_mem _ _ hnd.1, getCol_setCol_self]
    · exact ih _ h hnd.2

theorem setCols_eq_self (df : DataFrame) (L : List (String × List PyVal))
    (h : ∀ p ∈ L, getCol df p.1 = some p.2) : setCols df L = df := by
  induction L with
  | nil => rfl
  | cons p rest ih =>
    show setCols (setCol df p.1 p.2) rest = df
    rw [setCol_eq_self df (h p (List.mem_cons_self p rest))]
    exact ih (fun q hq => h q (List.mem_cons_of_mem p hq))

end DataFrame

namespace FeatureEngineer

theorem timeFeatureCols_fst (dates : List Date) :
    (timeFeatureCols dates).map Prod.fst = timeFeatureNames := by
  rfl

end FeatureEngineer

theorem pyRound_floor_le {α : Type} [LinearOrderedField α] [FloorRing α]
    (x : α) : ⌊x⌋ ≤ pyRound x := by
  unfold pyRound
  split_ifs <;> omega

theorem pyRound_le_floor_add_one {α : Type} [LinearOrderedField α]
    [FloorRing α] (x : α) : pyRound x ≤ ⌊x⌋ + 1 := by
  unfold pyRound
  split_ifs <;> omega

theorem pyRound_mono {α : Type} [LinearOrderedField α] [FloorRing α]
    {x y : α} (h : x ≤ y) : pyRound x ≤ pyRound y := by
  have hf : ⌊x⌋ ≤ ⌊y⌋ := Int.floor_mono h
  rcases lt_or_eq_of_le hf with hlt | heq
  · calc pyRound x ≤ ⌊x⌋ + 1 := pyRound_le_floor_add_one x
      _ ≤ ⌊y⌋ := by omega
      _ ≤ pyRound y := pyRound_floor_le y
  · unfold pyRound
    rw [← heq]
    split_ifs with h1 h2 h3 h4 h5 h6 h7 h8 <;>
      first
        | omega
        | (exfalso; linarith)

theorem pyRound_intCast {α : Type} [LinearOrderedField α] [FloorRing α]
    (n : ℤ) : pyRound ((n : α)) = n := by
  unfold pyRound
  rw [Int.floor_intCast]
  have : (n : α) - n = 0 := by ring
  rw [this]
  norm_num

theorem round2_mono {α : Type} [LinearOrderedField α] [FloorRing α]
    {x y : α} (h : x ≤ y) : round2 x ≤ round2 y := by
  unfold round2
  have h1 : pyRound (100 * x) ≤ pyRound (100 * y) :=
    pyRound_mono (by linarith)
  have h2 : ((pyRound (100 * x) : ℤ) : α) ≤ ((pyRound (100 * y) : ℤ) : α) :=
    Int.cast_le.mpr h1
  have h100 : (0 : α) < 100 := by norm_num
  exact (div_le_div_iff_of_pos_right h100).mpr h2

theorem round2_intCast {α : Type} [LinearOrderedField α] [FloorRing α]
    (n : ℤ) : round2 ((n : α)) = n := by
  unfold round2
  have : (100 : α) * n = ((100 * n : ℤ) : α) := by push_cast; ring
  rw [this, pyRound_intCast]
  push_cast
  ring

theorem round2_nonneg {α : Type} [LinearOrderedField α] [FloorRing α]
    {x : α} (h : 0 ≤ x) : 0 ≤ round2 x := by
  have h0 : round2 ((0 : ℤ) : α) ≤ round2 x := round2_mono (by simpa using h)
  rw [round2_intCast] at h0
  simpa using h0

/-! ## Claim theorems -/

set_option maxHeartbeats 1000000 in
/-- C9 (confirmed): `create_time_features` is pure, idempotent, and
non-mutating.  Part 1: applying it twice yields the same frame as
applying it once (for any date column that is not itself one of the ten
derived feature names — overwriting the date column is the one
degenerate self-clobbering configuration, and no caller in the
repository does it).  Part 2: the call leaves the input DataFrame object
unchanged (it works on `df.copy()`).  Part 3: the output value depends
only on the input value, not on the surrounding heap. -/
theorem c9_create_time_features_pure_idempotent :
    (∀ (df out : DataFrame) (c : String),
        c ∉ FeatureEngineer.timeFeatureNames →
        FeatureEngineer.create_time_features df c = .ok out →
        FeatureEngineer.create_time_features out c = .ok out) ∧
    (∀ (h : PyHeap) (ref : Nat) (c : String) (h' : PyHeap) (r' : Nat),
        callCreateTimeFeatures h ref c = .ok (h', r') →
        h'.objs[ref]? = h.objs[ref]?) ∧
    (∀ (h₁ h₂ : PyHeap) (r₁ r₂ : Nat) (c : String) (g₁ g₂ : PyHeap)
        (s₁ s₂ : Nat),
        h₁.objs[r₁]? = h₂.objs[r₂]? →
        callCreateTimeFeatures h₁ r₁ c = .ok (g₁, s₁) →
        callCreateTimeFeatures h₂ r₂ c = .ok (g₂, s₂) →
        g₁.objs[s₁]? = g₂.objs[s₂]?) := by
  refine ⟨?_, ?_, ?_⟩
  · intro df out c hc h
    unfold FeatureEngineer.create_time_features at h ⊢
    split at h
    · cases h
    · rename_i vs hv
      split at h
      · cases h
      · rename_i dates hd
        have hout : out = df.setCols (FeatureEngineer.timeFeatureCols dates) := by
          cases h; rfl
        subst hout
        have hget : (df.setCols (FeatureEngineer.timeFeatureCols dates)).getCol c
            = some vs := by
          rw [DataFrame.getCol_setCols_not_mem]
          · exact hv
          · rw [FeatureEngineer.timeFeatureCols_fst]; exact hc
        have hfix : (df.setCols (FeatureEngineer.timeFeatureCols dates)).setCols
            (FeatureEngineer.timeFeatureCols dates)
            = df.setCols (FeatureEngineer.timeFeatureCols dates) := by
          apply DataFrame.setCols_eq_self
          intro p hp
          apply DataFrame.getCol_setCols_mem df _ p hp
          rw [FeatureEngineer.timeFeatureCols_fst]
          decide
        simp only [hget, hd, hfix]
  · intro h ref c h' r' hcall
    unfold callCreateTimeFeatures at hcall
    split at hcall
    · cases hcall
    · rename_i df hv
      split at hcall
      · cases hcall
      · rename_i out hf
        have hh : h' = ⟨h.objs ++ [out]⟩ := by cases hcall; rfl
        subst hh
        have hlt : ref < h.objs.length := by
          by_contra hge
          rw [List.getElem?_eq_none (by omega)] at hv
          cases hv
        show (h.objs ++ [out])[ref]? = h.objs[ref]?
        rw [List.getElem?_append, if_pos hlt]
  · intro h₁ h₂ r₁ r₂ c g₁ g₂ s₁ s₂ heq hc₁ hc₂
    unfold callCreateTimeFeatures at hc₁ hc₂
    split at hc₁
    · cases hc₁
    · rename_i df hv
      rw [hv] at heq
      rw [← heq] at hc₂
      split at hc₁
      · cases hc₁
      · rename_i out hf
        simp only [hf] at hc₂
        have e₁ : g₁ = ⟨h₁.objs ++ [out]⟩ ∧ s₁ = h₁.objs.length := by
          cases hc₁; exact ⟨rfl, rfl⟩
        have e₂ : g₂ = ⟨h₂.objs ++ [out]⟩ ∧ s₂ = h₂.objs.length := by
          cases hc₂; exact ⟨rfl, rfl⟩
        rw [e₁.1, e₁.2, e₂.1, e₂.2]
        show (h₁.objs ++ [out])[h₁.objs.length]? = (h₂.objs ++ [out])[h₂.objs.length]?
        rw [List.getElem?_concat_length, List.getElem?_concat_length]

/-- Witness for C9 at a concrete one-row frame: the derived frame is a
fixed point of `create_time_features`, obtained by applying the theorem
at `c9df`. -/
theorem c9_create_time_features_witness :
    FeatureEngineer.timeFeatureNames.contains "date" = false ∧
    FeatureEngineer.create_time_features c9df "date" = .ok c9out ∧
    FeatureEngineer.create_time_features c9out "date" = .ok c9out :=
  ⟨by decide, by decide,
   c9_create_time_features_pure_idempotent.1 c9df c9out "date" (by decide)
     (by decide)⟩

theorem np_std3_self (a : ℝ) : np_std3 a a a = 0 := by
  unfold np_std3
  have h3 : (a + a + a) / 3 = a := by ring
  rw [h3]
  simp

theorem round2_zero {α : Type} [LinearOrderedField α] [FloorRing α] :
    round2 (0 : α) = 0 := by
  simpa using round2_intCast (α := α) 0

theorem round2_neg_one {α : Type} [LinearOrderedField α] [FloorRing α] :
    round2 (-1 : α) = -1 := by
  simpa using round2_intCast (α := α) (-1)

/-- C1 counterexample: with all three member models predicting −1 (the
regressors are unconstrained real-valued functions; a ridge model
extrapolating a declining series produces negative estimates), the
ensemble prediction is −1, the member deviation 0, and the returned
`lower_bound` is `max(0, −1) = 0 > −1 = prediction` — the claimed
`lower_bound ≤ prediction` fails (the prediction sits strictly below the
lower bound), because the code floors only the lower bound at 0 and not
the prediction. -/
theorem c1_interval_counterexample :
    (forecastDay (-1) (-1) (-1)).prediction <
      (forecastDay (-1) (-1) (-1)).lower_bound := by
  have hstd : np_std3 (-1) (-1) (-1) = 0 := np_std3_self (-1)
  have hpred : ensemblePoint (-1) (-1) (-1) = -1 := by
    unfold ensemblePoint; norm_num
  show round2 (ensemblePoint (-1) (-1) (-1)) <
      round2 (max 0 (ensemblePoint (-1) (-1) (-1) -
        1.96 * np_std3 (-1) (-1) (-1)))
  rw [hstd, hpred]
  have hmax : max (0 : ℝ) (-1 - 1.96 * 0) = 0 := by norm_num
  rw [hmax, round2_zero, round2_neg_one]
  norm_num

/-- C1 (amended): on every forecast day, `lower_bound ≥ 0` and
`prediction ≤ upper_bound` hold unconditionally, and
`lower_bound ≤ prediction` holds whenever the ensemble prediction is
nonnegative — the interval is `prediction ± 1.96 × np.std(member
predictions)` with only its lower end floored at 0, so a negative
ensemble prediction (reachable, since the member regressors are
unconstrained) sits below its own lower bound. -/
theorem c1_interval_bounds (gbm rf ridge : ℝ) :
    0 ≤ (forecastDay gbm rf ridge).lower_bound ∧
    (forecastDay gbm rf ridge).prediction ≤
      (forecastDay gbm rf ridge).upper_bound ∧
    (0 ≤ ensemblePoint gbm rf ridge →
      (forecastDay gbm rf ridge).lower_bound ≤
        (forecastDay gbm rf ridge).prediction) := by
  have hs : 0 ≤ np_std3 gbm rf ridge := Real.sqrt_nonneg _
  have hw : (0 : ℝ) ≤ 1.96 * np_std3 gbm rf ridge :=
    mul_nonneg (by norm_num) hs
  refine ⟨?_, ?_, ?_⟩
  · show 0 ≤ round2 (max 0 (ensemblePoint gbm rf ridge -
        1.96 * np_std3 gbm rf ridge))
    exact round2_nonneg (le_max_left _ _)
  · show round2 (ensemblePoint gbm rf ridge) ≤
        round2 (ensemblePoint gbm rf ridge + 1.96 * np_std3 gbm rf ridge)
    exact round2_mono (by linarith)
  · intro hp
    show round2 (max 0 (ensemblePoint gbm rf ridge -
        1.96 * np_std3 gbm rf ridge)) ≤ round2 (ensemblePoint gbm rf ridge)
    exact round2_mono (max_le hp (by linarith))

/-- Witness for C1's amended theorem at the member predictions (1,1,1):
the ensemble prediction is nonnegative and the lower bound indeed sits
below it. -/
theorem c1_interval_bounds_witness :
    0 ≤ ensemblePoint 1 1 1 ∧
    (forecastDay 1 1 1).lower_bound ≤ (forecastDay 1 1 1).prediction :=
  ⟨by unfold ensemblePoint; norm_num,
   (c1_interval_bounds 1 1 1).2.2 (by unfold ensemblePoint; norm_num)⟩

/-- C2 counterexample: a trained `SpendingPredictor` given a named-column
frame that has a `date` column but lacks the required `total_spent`
column does not fail with any `MissingFeatureError` (no such class exists
in the codebase): `predict` never calls `validate_input`, and the call
dies deep inside `_create_features` with pandas' `KeyError` on the
column lookup. -/
theorem c2_missing_feature_counterexample :
    spendingPredictAccess true dfNoSpend = .error (.keyError "total_spent") ∧
    PyErr.isMissingFeature (.keyError "total_spent") = false := by
  constructor
  · decide
  · rfl

/-- C2 (amended): `BasePredictor.validate_input` does fail fast — with a
generic `ValueError` naming the missing features (not a
`MissingFeatureError`, which the codebase never defines) — and returns
`True` without truncating anything when nothing is missing; but
`SpendingPredictor.predict` never invokes it, so a named-column input
missing a required column fails deep inside feature construction with a
`KeyError` instead. -/
theorem c2_validation_behaviour :
    (∀ (names cols : List String),
        names.filter (fun f => ¬ cols.contains f) ≠ [] →
        validate_input names (.dataframe cols) =
          .error (.valueError ("Missing features: " ++
            String.intercalate ", "
              (names.filter (fun f => ¬ cols.contains f))))) ∧
    (∀ (names cols : List String),
        names.filter (fun f => ¬ cols.contains f) = [] →
        validate_input names (.dataframe cols) = .ok true) ∧
    (∀ (df df1 : DataFrame),
        FeatureEngineer.create_time_features df "date" = .ok df1 →
        df.getCol "total_spent" = none →
        spendingPredictAccess true df = .error (.keyError "total_spent")) := by
  refine ⟨?_, ?_, ?_⟩
  · intro names cols hm
    have hne : names ≠ [] := by
      intro h
      subst h
      simp at hm
    simp only [validate_input]
    rw [if_pos hne, if_pos hm]
  · intro names cols hm
    simp only [validate_input]
    by_cases hne : names ≠ []
    · rw [if_pos hne, if_neg (not_not_intro hm)]
    · rw [if_neg hne]
  · intro df df1 h1 h0
    have hts : df1.getCol "total_spent" = none := by
      unfold FeatureEngineer.create_time_features at h1
      split at h1
      · cases h1
      · rename_i vs hv
        split at h1
        · cases h1
        · rename_i dates hd
          have : df1 = df.setCols (FeatureEngineer.timeFeatureCols dates) := by
            cases h1; rfl
          subst this
          rw [DataFrame.getCol_setCols_not_mem]
          · exact h0
          · rw [FeatureEngineer.timeFeatureCols_fst]; decide
    unfold spendingPredictAccess
    simp only [Bool.not_true, if_neg]
    simp only [h1, hts]
    rfl

/-- Witness for C2's amended theorem: a concrete missing-feature
DataFrame rejected by `validate_input`, a concrete complete one
accepted, and the concrete `KeyError` path of `predict`. -/
theorem c2_validation_behaviour_witness :
    validate_input ["lag_1"] (.dataframe ["amount"]) =
      .error (.valueError ("Missing features: " ++ String.intercalate ", "
        ((["lag_1"] : List String).filter (fun f =>
          ¬ (["amount"] : List String).contains f)))) ∧
    validate_input ["lag_1"] (.dataframe ["lag_1", "amount"]) = .ok true ∧
    spendingPredictAccess true dfNoSpend = .error (.keyError "total_spent") :=
  ⟨c2_validation_behaviour.1 ["lag_1"] ["amount"] (by decide),
   c2_validation_behaviour.2.1 ["lag_1"] ["lag_1", "amount"] (by decide),
   c2_validation_behaviour.2.2 dfNoSpend dfNoSpendFeat (by decide) (by decide)⟩

theorem dictGet_dictSet_self (d : PyDict) (k : String) (v : SVal) :
    dictGet (dictSet d k v) k = some v := by
  induction d with
  | nil => simp [dictSet, dictGet]
  | cons p rest ih =>
    obtain ⟨m, w⟩ := p
    by_cases h : m = k
    · simp [dictSet, h, dictGet]
    · simp [dictSet, h, dictGet, ih]

theorem dictGet_dictSet_ne (d : PyDict) {k k' : String} (v : SVal)
    (h : k ≠ k') : dictGet (dictSet d k' v) k = dictGet d k := by
  induction d with
  | nil => simp [dictSet, dictGet, Ne.symm h]
  | cons p rest ih =>
    obtain ⟨m, w⟩ := p
    by_cases hm : m = k'
    · subst hm
      simp [dictSet, dictGet, Ne.symm h]
    · by_cases hk : m = k
      · simp [dictSet, hm, dictGet, hk, h]
      · simp [dictSet, hm, dictGet, hk, ih]

/-- C3 counterexample: none of the four components' own result mappings
contains a `status` key — here checked on the emotional analyzer's
result (any row count), the spending predictor's `predict` mapping, the
goal scorer's `predict` mapping and the anomaly summary's no-anomaly
branch. -/
theorem c3_status_counterexample :
    (analyzeResultKeys 0).contains "status" = false ∧
    spendingPredictResultKeys.contains "status" = false ∧
    goalPredictResultKeys.contains "status" = false ∧
    (anomalySummaryKeys true).contains "status" = false := by
  decide

/-- C3 (amended): the components' own result mappings contain no
`status` field; the `status` discriminator — always one of `success`,
`insufficient_data`, `no_data`, `error` — is attached by the `AIService`
wrapper methods (`predict_spending`, `score_goal`, `detect_anomalies`,
`analyze_emotional_patterns`) around the component calls. -/
theorem c3_status_from_service :
    (∀ n, (analyzeResultKeys n).contains "status" = false) ∧
    spendingPredictResultKeys.contains "status" = false ∧
    goalPredictResultKeys.contains "status" = false ∧
    (∀ b, (anomalySummaryKeys b).contains "status" = false) ∧
    (∀ (histLen : Nat) (trained : Bool) (tr : Except PyErr Unit)
        (cr : Except PyErr PyDict) (ctx : SVal), ∃ s,
        dictGet (predict_spending_service histLen trained tr cr ctx) "status"
          = some (.str s) ∧ s ∈ allowedStatuses) ∧
    (∀ (trained : Bool) (tr : Except PyErr Unit) (cr : Except PyErr PyDict),
        ∃ s, dictGet (score_goal_service trained tr cr) "status"
          = some (.str s) ∧ s ∈ allowedStatuses) ∧
    (∀ (hasData : Bool) (summary : PyDict), ∃ s,
        dictGet (detect_anomalies_service hasData summary) "status"
          = some (.str s) ∧ s ∈ allowedStatuses) ∧
    (∀ (hasData : Bool) (analysis : PyDict) (periodDays : Nat), ∃ s,
        dictGet (analyze_emotional_service hasData analysis periodDays) "status"
          = some (.str s) ∧ s ∈ allowedStatuses) := by
  refine ⟨?_, by decide, by decide, ?_, ?_, ?_, ?_, ?_⟩
  · intro n
    unfold analyzeResultKeys
    split <;> decide
  · intro b
    unfold anomalySummaryKeys
    split <;> decide
  · intro histLen trained tr cr ctx
    unfold predict_spending_service
    split
    · exact ⟨"insufficient_data", rfl, by decide⟩
    · cases (if trained then Except.ok () else tr) with
      | error e => exact ⟨"error", rfl, by decide⟩
      | ok u =>
          cases cr with
          | error e => exact ⟨"error", rfl, by decide⟩
          | ok preds =>
              refine ⟨"success", ?_, by decide⟩
              rw [dictGet_dictSet_ne _ _ (by decide), dictGet_dictSet_self]
  · intro trained tr cr
    unfold score_goal_service
    cases (if trained then Except.ok () else tr) with
    | error e => exact ⟨"error", rfl, by decide⟩
    | ok u =>
        cases cr with
        | error e => exact ⟨"error", rfl, by decide⟩
        | ok result =>
            exact ⟨"success", dictGet_dictSet_self result "status" _, by decide⟩
  · intro hasData summary
    unfold detect_anomalies_service
    split
    · exact ⟨"no_data", rfl, by decide⟩
    · exact ⟨"success", dictGet_dictSet_self summary "status" _, by decide⟩
  · intro hasData analysis periodDays
    unfold analyze_emotional_service
    split
    · exact ⟨"no_data", rfl, by decide⟩
    · refine ⟨"success", ?_, by decide⟩
      rw [dictGet_dictSet_ne _ _ (by decide), dictGet_dictSet_self]

/-- C4 counterexample: with overall statistics mean $50/σ $10 and
quartiles $45/$55, the $5,000 transaction is labelled
`very_high_amount` only — `anomaly_type` is a single column and the
category rule skips rows that are already flagged, so the claimed
simultaneous `category_outlier` label is never attached. -/
theorem c4_both_labels_counterexample :
    (detect_anomalies_row scenarioStats true false true false 0
        scenarioTxn).anomaly_type = some "very_high_amount" ∧
    ((detect_anomalies_row scenarioStats true false true false 0
        scenarioTxn).anomaly_type == some "category_outlier") = false := by
  have hmain : detect_anomalies_row scenarioStats true false true false 0
      scenarioTxn =
      ml_stage_row true false 0 (detect_timing_row false scenarioAmountStats
        (detect_category_row [("Dining", scenarioCatStats)]
          (detect_very_high_rule scenarioAmountStats
            (detect_high_amount_rule scenarioAmountStats
              (initAnnotated scenarioTxn))))) := rfl
  rw [hmain]
  have h1 : detect_high_amount_rule scenarioAmountStats
      (initAnnotated scenarioTxn) =
      ⟨scenarioTxn, true, some "high_amount",
        some "Amount exceeds typical range", none⟩ := by
    unfold detect_high_amount_rule initAnnotated scenarioAmountStats
      scenarioTxn
    rw [if_pos (by norm_num)]
  have h2 : detect_very_high_rule scenarioAmountStats
      (⟨scenarioTxn, true, some "high_amount",
        some "Amount exceeds typical range", none⟩ : AnnotatedRow) =
      ⟨scenarioTxn, true, some "very_high_amount",
        some "Amount significantly exceeds average (3+ std dev)", none⟩ := by
    unfold detect_very_high_rule scenarioAmountStats scenarioTxn
    rw [if_pos (by norm_num)]
  have h3 : detect_category_row [("Dining", scenarioCatStats)]
      (⟨scenarioTxn, true, some "very_high_amount",
        some "Amount significantly exceeds average (3+ std dev)", none⟩ :
          AnnotatedRow) =
      ⟨scenarioTxn, true, some "very_high_amount",
        some "Amount significantly exceeds average (3+ std dev)", none⟩ := by
    unfold detect_category_row
    simp
  have h4 : ∀ r : AnnotatedRow,
      detect_timing_row false scenarioAmountStats r = r := by
    intro r
    unfold detect_timing_row
    simp
  have h5 : ml_stage_row true false 0
      (⟨scenarioTxn, true, some "very_high_amount",
        some "Amount significantly exceeds average (3+ std dev)", none⟩ :
          AnnotatedRow) =
      ⟨scenarioTxn, true, some "very_high_amount",
        some "Amount significantly exceeds average (3+ std dev)", some 0⟩ := by
    unfold ml_stage_row
    simp
  rw [h1, h2, h3, h4, h5]
  exact ⟨rfl, rfl⟩

/-- C4 (amended): for every fitted detector whose category baseline for
the transaction's category is mean $50/σ $10, the single $5,000
transaction is always flagged (`is_anomaly = True`) and carries exactly
one label — `very_high_amount` or `high_amount` when the overall amount
rules catch it first, `category_outlier` otherwise — never both labels
at once, since `anomaly_type` is a single column and the category rule
applies only to rows not already flagged. -/
theorem c4_single_label (ast : AmountStats) (dst : DailyStats)
    (cat : String) (cnt : Nat) (mlA : Bool) (ms : ℝ) :
    (c4Detect ast dst cat cnt mlA ms).is_anomaly = true ∧
    ((c4Detect ast dst cat cnt mlA ms).anomaly_type = some "high_amount" ∨
     (c4Detect ast dst cat cnt mlA ms).anomaly_type = some "very_high_amount" ∨
     (c4Detect ast dst cat cnt mlA ms).anomaly_type = some "category_outlier") := by
  have hmain : c4Detect ast dst cat cnt mlA ms =
      ml_stage_row true mlA ms (detect_timing_row false ast
        (detect_category_row [(cat, ⟨50, 10, cnt⟩)]
          (detect_very_high_rule ast (detect_high_amount_rule ast
            (initAnnotated ⟨5000, ⟨2024, 3, 15⟩, cat, 12⟩))))) := rfl
  rw [hmain]
  have hcatflag : ∀ (t rs : Option String),
      detect_category_row [(cat, ⟨50, 10, cnt⟩)]
        (⟨⟨5000, ⟨2024, 3, 15⟩, cat, 12⟩, false, t, rs, none⟩ : AnnotatedRow) =
      ⟨⟨5000, ⟨2024, 3, 15⟩, cat, 12⟩, true, some "category_outlier",
        some ("Unusually high for " ++ cat), none⟩ := by
    intro t rs
    unfold detect_category_row
    simp only [List.foldl_cons, List.foldl_nil]
    rw [if_pos ⟨by simp, by norm_num, by simp⟩]
  have hcatskip : ∀ (t rs : Option String),
      detect_category_row [(cat, ⟨50, 10, cnt⟩)]
        (⟨⟨5000, ⟨2024, 3, 15⟩, cat, 12⟩, true, t, rs, none⟩ : AnnotatedRow) =
      ⟨⟨5000, ⟨2024, 3, 15⟩, cat, 12⟩, true, t, rs, none⟩ := by
    intro t rs
    unfold detect_category_row
    simp
  have htime : ∀ r : AnnotatedRow, detect_timing_row false ast r = r := by
    intro r
    unfold detect_timing_row
    simp
  have hml : ∀ (t r : String) (ml : Option ℝ),
      ml_stage_row true mlA ms
        (⟨⟨5000, ⟨2024, 3, 15⟩, cat, 12⟩, true, some t, some r, ml⟩ :
          AnnotatedRow) =
      ⟨⟨5000, ⟨2024, 3, 15⟩, cat, 12⟩, true, some t, some r, some ms⟩ := by
    intro t r ml
    unfold ml_stage_row
    simp
  by_cases h1 : (5000 : ℚ) > ast.q3 + (3 / 2) * ast.iqr <;>
    by_cases h2 : ((5000 : ℚ) : ℝ) > (ast.mean : ℝ) + 3 * ast.std
  · rw [show detect_high_amount_rule ast
        (initAnnotated ⟨5000, ⟨2024, 3, 15⟩, cat, 12⟩) =
        ⟨⟨5000, ⟨2024, 3, 15⟩, cat, 12⟩, true, some "high_amount",
          some "Amount exceeds typical range", none⟩ from by
      unfold detect_high_amount_rule initAnnotated; rw [if_pos h1]]
    rw [show detect_very_high_rule ast
        (⟨⟨5000, ⟨2024, 3, 15⟩, cat, 12⟩, true, some "high_amount",
          some "Amount exceeds typical range", none⟩ : AnnotatedRow) =
        ⟨⟨5000, ⟨2024, 3, 15⟩, cat, 12⟩, true, some "very_high_amount",
          some "Amount significantly exceeds average (3+ std dev)", none⟩ from by
      unfold detect_very_high_rule; rw [if_pos h2]]
    rw [hcatskip, htime, hml]
    exact ⟨rfl, Or.inr (Or.inl rfl)⟩
  · rw [show detect_high_amount_rule ast
        (initAnnotated ⟨5000, ⟨2024, 3, 15⟩, cat, 12⟩) =
        ⟨⟨5000, ⟨2024, 3, 15⟩, cat, 12⟩, true, some "high_amount",
          some "Amount exceeds typical range", none⟩ from by
      unfold detect_high_amount_rule initAnnotated; rw [if_pos h1]]
    rw [show detect_very_high_rule ast
        (⟨⟨5000, ⟨2024, 3, 15⟩, cat, 12⟩, true, some "high_amount",
          some "Amount exceeds typical range", none⟩ : AnnotatedRow) =
        ⟨⟨5000, ⟨2024, 3, 15⟩, cat, 12⟩, true, some "high_amount",
          some "Amount exceeds typical range", none⟩ from by
      unfold detect_very_high_rule; rw [if_neg h2]]
    rw [hcatskip, htime, hml]
    exact ⟨rfl, Or.inl rfl⟩
  · rw [show detect_high_amount_rule ast
        (initAnnotated ⟨5000, ⟨2024, 3, 15⟩, cat, 12⟩) =
        ⟨⟨5000, ⟨2024, 3, 15⟩, cat, 12⟩, false, none, none, none⟩ from by
      unfold detect_high_amount_rule initAnnotated; rw [if_neg h1]]
    rw [show detect_very_high_rule ast
        (⟨⟨5000, ⟨2024, 3, 15⟩, cat, 12⟩, false, none, none, none⟩ :
          AnnotatedRow) =
        ⟨⟨5000, ⟨2024, 3, 15⟩, cat, 12⟩, false, some "very_high_amount",
          some "Amount significantly exceeds average (3+ std dev)", none⟩ from by
      unfold detect_very_high_rule; rw [if_pos h2]]
    rw [hcatflag, htime, hml]
    exact ⟨rfl, Or.inr (Or.inr rfl)⟩
  · rw [show detect_high_amount_rule ast
        (initAnnotated ⟨5000, ⟨2024, 3, 15⟩, cat, 12⟩) =
        ⟨⟨5000, ⟨2024, 3, 15⟩, cat, 12⟩, false, none, none, none⟩ from by
      unfold detect_high_amount_rule initAnnotated; rw [if_neg h1]]
    rw [show detect_very_high_rule ast
        (⟨⟨5000, ⟨2024, 3, 15⟩, cat, 12⟩, false, none, none, none⟩ :
          AnnotatedRow) =
        ⟨⟨5000, ⟨2024, 3, 15⟩, cat, 12⟩, false, none, none, none⟩ from by
      unfold detect_very_high_rule; rw [if_neg h2]]
    rw [hcatflag, htime, hml]
    exact ⟨rfl, Or.inr (Or.inr rfl)⟩

theorem sp_create_features_length (rows : List DailyRow) :
    (sp_create_features rows).length = rows.length := by
  unfold sp_create_features
  rw [List.length_map, List.length_range]

/-- C5 counterexample: on a 59-day series `train` raises a plain
`ValueError` — the codebase defines no `InsufficientDataError` class
(`backend/app/core/exceptions.py` has none), so the claimed named error
is not what is raised. -/
theorem c5_error_name_counterexample :
    SpendingPredictor.train days59 SpendingPredictor.initState =
      .error (.valueError "Need at least 60 days of data for training") ∧
    PyErr.isInsufficientData
      (.valueError "Need at least 60 days of data for training") = false := by
  constructor
  · have hlen : (sp_create_features days59).length = 59 := by
      rw [sp_create_features_length]; rfl
    unfold SpendingPredictor.train
    rw [if_pos (show (sp_create_features days59).length < 60 by
      rw [hlen]; norm_num)]
  · rfl

/-- C5 (amended): `train` raises a generic
`ValueError("Need at least 60 days of data for training")` — not the
spec's `InsufficientDataError`, which the codebase never defines — for
every prepared daily series of fewer than 60 days, and completes
training (marking the model trained) for every series of 60 or more
days. -/
theorem c5_train_threshold (rows : List DailyRow)
    (st : SpendingPredictorTrainState) :
    (rows.length < 60 →
      SpendingPredictor.train rows st =
        .error (.valueError "Need at least 60 days of data for training")) ∧
    (60 ≤ rows.length →
      SpendingPredictor.train rows st =
        .ok { st with is_trained := true,
                      training_samples := some rows.length }) := by
  have hlen : (sp_create_features rows).length = rows.length :=
    sp_create_features_length rows
  constructor
  · intro h
    unfold SpendingPredictor.train
    rw [if_pos (show (sp_create_features rows).length < 60 by
      rw [hlen]; exact h)]
  · intro h
    unfold SpendingPredictor.train
    rw [if_neg (show ¬ (sp_create_features rows).length < 60 by
      rw [hlen]; omega), hlen]

/-- Witness for C5's amended theorem at a 59-day and a 60-day series. -/
theorem c5_train_threshold_witness :
    SpendingPredictor.train days59 SpendingPredictor.initState =
      .error (.valueError "Need at least 60 days of data for training") ∧
    SpendingPredictor.train days60 SpendingPredictor.initState =
      .ok { SpendingPredictor.initState with
              is_trained := true, training_samples := some days60.length } :=
  ⟨(c5_train_threshold days59 SpendingPredictor.initState).1 (by decide),
   (c5_train_threshold days60 SpendingPredictor.initState).2 (by decide)⟩

/-- C6 counterexample: a model state whose `feature_names` is nonempty
before `load` (as every `SpendingPredictor` is, since its `__init__`
fills the list) keeps that nonempty list when the blob exists and the
metadata sibling is absent — the fields are left unchanged, not
"degraded to empty" as the claim states for every model. -/
theorem c6_metadata_not_emptied_counterexample :
    BasePredictor.load c6fsBlobOnly "models" c6state =
      .ok { c6state with hasModel := true, is_trained := true } ∧
    ({ c6state with hasModel := true, is_trained := true } :
      BaseState).feature_names.isEmpty = false ∧
    ({ c6state with hasModel := true, is_trained := true } :
      BaseState).metrics.isEmpty = false := by
  refine ⟨by decide, by decide, by decide⟩

/-- C6 (amended): if the blob is absent, `load` raises
`FileNotFoundError` before any state is touched (so `is_trained` keeps
its prior value, `False` on a never-trained model); if the blob exists
but the metadata sibling is absent, `load` succeeds leaving `metrics`
and `feature_names` unchanged — hence still empty on a freshly
constructed base model, but not emptied on a model whose constructor or
earlier life filled them. -/
theorem c6_load_behaviour (fs : FileSystem) (path : String)
    (st : BaseState) :
    (fsLookup fs (modelFilePath st path) = none →
      BasePredictor.load fs path st =
        .error (.fileNotFoundError
          ("Model file not found: " ++ modelFilePath st path))) ∧
    (∀ f, fsLookup fs (modelFilePath st path) = some f →
      fsLookup fs (metadataFilePath st path) = none →
      BasePredictor.load fs path st =
        .ok { st with hasModel := true, is_trained := true }) := by
  constructor
  · intro h
    unfold BasePredictor.load
    simp only [h]
  · intro f hf hm
    unfold BasePredictor.load
    simp only [hf, hm]

/-- Witness for C6's amended theorem: an empty directory yields the
`FileNotFoundError`; a blob-only directory yields the unchanged-fields
success state. -/
theorem c6_load_behaviour_witness :
    BasePredictor.load [] "models" c6state =
      .error (.fileNotFoundError
        ("Model file not found: " ++ modelFilePath c6state "models")) ∧
    BasePredictor.load c6fsBlobOnly "models" c6state =
      .ok { c6state with hasModel := true, is_trained := true } :=
  ⟨(c6_load_behaviour [] "models" c6state).1 rfl,
   (c6_load_behaviour c6fsBlobOnly "models" c6state).2 StoredFile.blob
     (by decide) (by decide)⟩

theorem anomalyFeatures_length (st : AnomalyStats) (rows : List TxnRow) :
    (anomalyFeatures st rows).length = rows.length := by
  unfold anomalyFeatures
  rw [List.length_map]

/-- C8 counterexample: a frame of exactly ten observations does not
train the isolation forest — the source's condition is the strict
`len(features) > 10`, so at the claim's boundary of "at least 10" the
model stays unfitted. -/
theorem c8_exactly_ten_counterexample :
    (AnomalyDetector.fit txns10 false AnomalyDetector.init).is_fitted
      = false ∧
    txns10.length = 10 := by
  constructor
  · rfl
  · rfl

/-- C8 (amended): from a fresh detector, `fit` trains the unsupervised
outlier model (sets `is_fitted`) exactly when the data contains strictly
more than 10 observations (i.e. at least 11); at 10 or fewer — and on an
empty frame, which returns before fitting — the outlier model is not
trained. -/
theorem c8_fit_threshold (rows : List TxnRow) (hasCatCol : Bool) :
    (AnomalyDetector.fit rows hasCatCol AnomalyDetector.init).is_fitted
      = true ↔ 10 < rows.length := by
  unfold AnomalyDetector.fit
  by_cases hempty : rows = []
  · subst hempty
    simp [AnomalyDetector.init]
  · rw [if_neg hempty]
    have hlen := anomalyFeatures_length (calcStatistics rows hasCatCol) rows
    by_cases h10 : 10 <
        (anomalyFeatures (calcStatistics rows hasCatCol) rows).length
    · rw [if_pos h10]
      rw [hlen] at h10
      simp [h10]
    · rw [if_neg h10]
      rw [hlen] at h10
      simp [AnomalyDetector.init, h10]

/-- Witness for C8's amended theorem: eleven observations do train the
forest. -/
theorem c8_fit_threshold_witness :
    (AnomalyDetector.fit txns11 false AnomalyDetector.init).is_fitted
      = true ∧ 10 < txns11.length :=
  ⟨(c8_fit_threshold txns11 false).mpr (by decide), by decide⟩

/-- C10 (confirmed): `fit` on an empty frame raises no error and returns
the detector unchanged — in particular a fresh detector still has no
baseline statistics and `is_fitted = False`, so the public interface
tolerates a user with no history. -/
theorem c10_fit_empty_noop :
    (∀ (st : AnomalyDetectorState) (hasCatCol : Bool),
        AnomalyDetector.fit [] hasCatCol st = st) ∧
    (AnomalyDetector.fit [] true AnomalyDetector.init).is_fitted = false ∧
    (AnomalyDetector.fit [] true AnomalyDetector.init).stats = none := by
  refine ⟨?_, rfl, rfl⟩
  intro st hasCatCol
  unfold AnomalyDetector.fit
  simp

open EmotionalPatternAnalyzer

/-- C7 (confirmed): the risk score is an integer in [0,100] for every
input, and an all-planned, all-necessary, zero-stress dataset of at
least 20 emotion-tagged rows with no high-regret entries gets risk score
exactly 0 and the spending persona "The Planner". -/
theorem c7_risk_score_planner :
    (∀ df : EmoDF, 0 ≤ calculate_risk_score df ∧
        calculate_risk_score df ≤ 100) ∧
    (∀ rows : List EmoRow, 20 ≤ rows.length →
        (∀ r ∈ rows, r.primary_emotion = some "planned" ∧
          r.was_necessary = true ∧ r.stress_level = 0 ∧
          ∀ v, r.regret_level = some v → v < 7) →
        analyze_risk_score rows true true true = 0 ∧
        ∃ p, analyze_spending_persona rows true true true = some (.ok p) ∧
          p.persona = "The Planner") := by
  constructor
  · intro df
    constructor
    · have h1 : (0 : ℚ) ≤ risk_factor_impulsive df := by
        unfold risk_factor_impulsive
        split_ifs <;> positivity
      have h2 : (0 : ℚ) ≤ risk_factor_unnecessary df := by
        unfold risk_factor_unnecessary
        split_ifs <;> positivity
      have h3 : (0 : ℚ) ≤ risk_factor_stress df := by
        unfold risk_factor_stress
        split_ifs <;> positivity
      have h4 : (0 : ℚ) ≤ risk_factor_negative df := by
        unfold risk_factor_negative
        split_ifs <;> positivity
      have h5 : (0 : ℚ) ≤ risk_factor_regret df := by
        unfold risk_factor_regret
        split_ifs <;> positivity
      have hsum : (0 : ℚ) ≤ risk_factor_impulsive df +
          risk_factor_unnecessary df + risk_factor_stress df +
          risk_factor_negative df + risk_factor_regret df :=
        add_nonneg (add_nonneg (add_nonneg (add_nonneg h1 h2) h3) h4) h5
      have hpr : (0 : ℤ) ≤ pyRound (risk_factor_impulsive df +
          risk_factor_unnecessary df + risk_factor_stress df +
          risk_factor_negative df + risk_factor_regret df) := by
        have h0 := pyRound_mono (x := ((0 : ℤ) : ℚ)) (by simpa using hsum)
        rwa [pyRound_intCast] at h0
      exact le_min (by norm_num) hpr
    · exact min_le_left _ _
  · intro rows hlen hall
    have hne : rows ≠ [] := by
      intro h
      subst h
      simp at hlen
    have hn0 : rows.length ≠ 0 := by
      intro h
      exact hne (List.length_eq_zero.mp h)
    have hpos : 0 < rows.length := Nat.pos_of_ne_zero hn0
    have hemo : emotionalRows rows = rows := by
      unfold emotionalRows
      apply List.filter_eq_self.mpr
      intro r hr
      rw [(hall r hr).1]
      rfl
    have hc1 : rows.countP
        (fun r => emotionIn RISK_EMOTIONS r.primary_emotion) = 0 := by
      apply List.countP_eq_zero.mpr
      intro r hr
      rw [(hall r hr).1]
      decide
    have hc2 : rows.countP (fun r => ! r.was_necessary) = 0 := by
      apply List.countP_eq_zero.mpr
      intro r hr
      simp [(hall r hr).2.1]
    have hc3 : rows.countP (fun r => 7 ≤ r.stress_level) = 0 := by
      apply List.countP_eq_zero.mpr
      intro r hr
      simp [(hall r hr).2.2.1]
    have hc4 : rows.countP
        (fun r => emotionIn NEGATIVE_EMOTIONS r.primary_emotion) = 0 := by
      apply List.countP_eq_zero.mpr
      intro r hr
      rw [(hall r hr).1]
      decide
    have hc5 : rows.countP (fun r =>
        match r.regret_level with
        | some v => 7 ≤ v
        | none => false) = 0 := by
      apply List.countP_eq_zero.mpr
      intro r hr
      cases hreg : r.regret_level with
      | none => simp [hreg]
      | some v =>
          have hv := (hall r hr).2.2.2 v hreg
          simp [hreg]
          linarith
    have hf1 : risk_factor_impulsive ⟨rows, true, true, true⟩ = 0 := by
      unfold risk_factor_impulsive
      norm_num [hc1, hpos]
    have hf2 : risk_factor_unnecessary ⟨rows, true, true, true⟩ = 0 := by
      unfold risk_factor_unnecessary
      norm_num [hc2]
    have hf3 : risk_factor_stress ⟨rows, true, true, true⟩ = 0 := by
      unfold risk_factor_stress
      norm_num [hc3, hpos]
    have hf4 : risk_factor_negative ⟨rows, true, true, true⟩ = 0 := by
      unfold risk_factor_negative
      norm_num [hc4, hpos]
    have hf5 : risk_factor_regret ⟨rows, true, true, true⟩ = 0 := by
      unfold risk_factor_regret
      norm_num [hc5, hpos]
    constructor
    · unfold analyze_risk_score
      rw [hemo, if_neg hne]
      unfold calculate_risk_score
      rw [hf1, hf2, hf3, hf4, hf5]
      have hz : pyRound ((0 : ℚ) + 0 + 0 + 0 + 0) = 0 := by
        norm_num
        simpa using pyRound_intCast (α := ℚ) 0
      rw [hz]
      exact min_eq_right (by norm_num)
    · have hplanned : emotion_pct rows "planned" = 1 := by
        unfold emotion_pct
        rw [List.countP_eq_length.mpr]
        · exact div_self (Nat.cast_ne_zero.mpr hn0)
        · intro r hr
          rw [(hall r hr).1]
          decide
      have hpersona : analyze_spending_persona rows true true true =
          some (identify_spending_persona ⟨rows, true, true, true⟩) := by
        unfold analyze_spending_persona
        rw [hemo, if_neg hne, if_pos hlen]
      refine ⟨⟨(persona_label (emotion_pct rows "stressed")
            (emotion_pct rows "impulsive") (emotion_pct rows "planned")
            (unnecessary_pct rows)).1,
          (persona_label (emotion_pct rows "stressed")
            (emotion_pct rows "impulsive") (emotion_pct rows "planned")
            (unnecessary_pct rows)).2,
          round1 (emotion_pct rows "stressed" * 100),
          round1 (emotion_pct rows "impulsive" * 100),
          round1 (emotion_pct rows "planned" * 100),
          round1 (unnecessary_pct rows * 100)⟩, ?_, ?_⟩
      · rw [hpersona]
        rfl
      · show (persona_label (emotion_pct rows "stressed")
            (emotion_pct rows "impulsive") (emotion_pct rows "planned")
            (unnecessary_pct rows)).1 = "The Planner"
        unfold persona_label
        rw [if_pos (by rw [hplanned]; norm_num)]

/-- Witness for C7 on a concrete 20-row all-planned dataset. -/
theorem c7_risk_score_planner_witness :
    (0 ≤ calculate_risk_score ⟨plannedRows20, true, true, true⟩ ∧
      calculate_risk_score ⟨plannedRows20, true, true, true⟩ ≤ 100) ∧
    20 ≤ plannedRows20.length ∧
    analyze_risk_score plannedRows20 true true true = 0 ∧
    ∃ p, analyze_spending_persona plannedRows20 true true true =
        some (.ok p) ∧ p.persona = "The Planner" := by
  have hall : ∀ r ∈ plannedRows20, r.primary_emotion = some "planned" ∧
      r.was_necessary = true ∧ r.stress_level = 0 ∧
      ∀ v, r.regret_level = some v → v < 7 := by
    intro r hr
    have hrp : r = plannedRow := List.eq_of_mem_replicate hr
    subst hrp
    refine ⟨rfl, rfl, rfl, ?_⟩
    intro v hv
    simp only [plannedRow] at hv
    injection hv with h
    subst h
    norm_num
  have hmain := c7_risk_score_planner.2 plannedRows20 (by decide) hall
  exact ⟨c7_risk_score_planner.1 ⟨plannedRows20, true, true, true⟩,
    by decide, hmain.1, hmain.2⟩
